import Mathlib

/-!
# Update server (`update-server-example.js`)

A shallow embedding of the Express update server: the two manifest endpoints
`GET /updates/latest` and `GET /updates/latest.yml`, together with the helpers
`calculateSHA512` and `getFileSize` they call.

Modelling conventions.

* The file system is a finite-map-like function from absolute, normalised paths
  (lists of segments) to file nodes.  It is read-only for the handlers.
* Every handler returns the HTTP response together with the list of file-system
  operations it performed, in order.
* `crypto.createHash('sha512')` belongs to the Node runtime; the digest function
  is a parameter of the environment.  The hash object is represented by the
  bytes absorbed so far.
* `new Date().toISOString()` reads the clock; the reading is an argument of the
  handler (`now`).
* `path.join` depends on the host: the POSIX flavour separates segments at
  `/`, the Windows flavour at `/` and `\`.  The flavour is part of the
  environment; the root (`/`, or the drive of the server directory) is fixed
  and left out of the paths.
* `console.log` output is not part of the model.
-/

set_option autoImplicit false

namespace UpdateServer

/-! ## Data model -/

/-- One octet of file content. -/
abbrev Byte := Fin 256

/-- File content, or one chunk of it. -/
abbrev Bytes := List Byte

/-- An absolute, normalised path: the list of its segments below the root
(`/`, or on a Windows host the drive of the server directory). -/
abbrev Path := List String

/-- JSON values as produced by `res.json`. -/
inductive Json where
  | str : String → Json
  | num : Nat → Json
  | arr : List Json → Json
  | obj : List (String × Json) → Json

/-- Field access on a JSON object (`undefined` is `none`). -/
def Json.field (j : Json) (key : String) : Option Json :=
  match j with
  | .obj kvs => (kvs.find? (fun kv => kv.1 == key)).map Prod.snd
  | _ => none

/-- Index access on a JSON array. -/
def Json.index (j : Json) (i : Nat) : Option Json :=
  match j with
  | .arr xs => xs.get? i
  | _ => none

/-- A response body: `res.json(..)` or `res.send(<string>)`. -/
inductive Body where
  | json : Json → Body
  | text : String → Body

/-- Observable part of an HTTP response.  `contentType` is the media type
chosen by the handler (Express adds a charset parameter on the wire). -/
structure Response where
  status : Nat
  contentType : String
  body : Body

/-- File-system operations performed by a handler. -/
inductive Event where
  | existsSync : Path → Event
  | createReadStream : Path → Event
  | statSync : Path → Event
  deriving DecidableEq, Repr

/-- A file as seen by the server.  A read stream over it emits `chunks` as
successive `data` events and then `end`, or `error` when `readError` is set.
`statSync` throws when `statError` is set; otherwise the reported size is the
length of the content. -/
structure FileNode where
  chunks : List Bytes
  readError : Option String
  statError : Option String
  deriving DecidableEq

/-- The whole content of a file. -/
def FileNode.content (node : FileNode) : Bytes := node.chunks.flatten

/-- The flavour of the `path` module, fixed by the host the server runs on. -/
inductive PathFlavor where
  | posix
  | win32
  deriving DecidableEq, Repr

/-- The separator test of the `path` module: `/` on a POSIX host, `/` or `\`
on a Windows host. -/
def PathFlavor.isSeparator : PathFlavor → Char → Bool
  | .posix, c => c == '/'
  | .win32, c => c == '/' || c == '\\'

/-- What the server code is closed over: the host's path flavour, its
directory, the file system and the runtime digest function. -/
structure Env where
  pathFlavor : PathFlavor
  dirname : Path
  fs : Path → Option FileNode
  sha512Hex : Bytes → String

/-- Parsed query string: `req.query.platform`, `req.query.arch`.  A parameter
is absent (`undefined`) or a string; repeated and bracketed parameters, which
the query parser turns into arrays and objects, are outside the model. -/
structure Query where
  platform : Option String
  arch : Option String

/-! ## Runtime helpers (`||`, `path.join`) -/

/-- JavaScript `v || d` for a value that is `undefined` or a string. -/
def jsOr (v : Option String) (d : String) : String :=
  match v with
  | none => d
  | some s => if s = "" then d else s

/-- Split a character list at every occurrence of `sep` (the separators are
removed; `n` separators give `n + 1` pieces). -/
def splitChar (sep : Char) : List Char → List (List Char)
  | [] => [[]]
  | c :: cs =>
    if c = sep then [] :: splitChar sep cs
    else
      match splitChar sep cs with
      | [] => [[c]]
      | seg :: rest => (c :: seg) :: rest

/-- Split a character list at every character satisfying `isSep` (the
separators are removed; `n` separators give `n + 1` pieces). -/
def splitSegments (isSep : Char → Bool) : List Char → List (List Char)
  | [] => [[]]
  | c :: cs =>
    if isSep c then [] :: splitSegments isSep cs
    else
      match splitSegments isSep cs with
      | [] => [[c]]
      | seg :: rest => (c :: seg) :: rest

/-- One step of path normalisation on an absolute path: empty and `.`
segments are dropped, `..` removes the last segment (and is dropped at the
root), any other segment is appended. -/
def normalizeStep (acc : Path) (seg : String) : Path :=
  if seg = "" ∨ seg = "." then acc
  else if seg = ".." then acc.dropLast
  else acc ++ [seg]

/-- `path.join(base, rel)` for an absolute normalised `base`: `rel` is cut at
the separators of the host's flavour and its segments are resolved against
`base`. -/
def pathJoin (flavor : PathFlavor) (base : Path) (rel : String) : Path :=
  ((splitSegments flavor.isSeparator rel.data).map String.mk).foldl normalizeStep base

/-- The lines of a text: its pieces between line feeds. -/
def lines (s : String) : List String :=
  (splitChar '\n' s.data).map String.mk

/-- Textual form of a path. -/
def pathString (p : Path) : String :=
  "/" ++ "/".intercalate p

/-! ## The server -/

/-- `const port = 3000`. -/
def port : Nat := 3000

/-- `const updatesDir = path.join(__dirname, 'updates')`. -/
def updatesDir (env : Env) : Path := pathJoin env.pathFlavor env.dirname "updates"

/-- `fs.existsSync`. -/
def existsSync (env : Env) (p : Path) : Bool := (env.fs p).isSome

/-- `calculateSHA512(filePath)`: the promise resolves with the hex digest of
everything the stream delivered, or rejects with the stream error. -/
def calculateSHA512 (env : Env) (filePath : Path) : Except String String :=
  match env.fs filePath with
  | none =>
    .error ("ENOENT: no such file or directory, open " ++ pathString filePath)
  | some node =>
    let hash : Bytes := node.chunks.foldl (fun h data => h ++ data) []
    match node.readError with
    | some error => .error error
    | none => .ok (env.sha512Hex hash)

/-- `getFileSize(filePath)`. -/
def getFileSize (env : Env) (filePath : Path) : Except String Nat :=
  match env.fs filePath with
  | none =>
    .error ("ENOENT: no such file or directory, stat " ++ pathString filePath)
  | some node =>
    match node.statError with
    | some error => .error error
    | none => .ok node.content.length

/-- The template literal of the artifact file name (both handlers). -/
def fileName (platform arch : String) : String :=
  "HarobotBlocklyEditor-1.2.0-" ++ platform ++ "-" ++ arch ++ ".exe"

/-- Body of the 404 answer. -/
def notFoundBody : Json :=
  .obj [("error", .str "更新文件不存在"),
        ("message", .str "未找到版本 1.2.0 的更新文件")]

/-- Body of the 500 answer produced by the `catch` block. -/
def internalErrorBody (message : String) : Json :=
  .obj [("error", .str "服务器内部错误"), ("message", .str message)]

/-- `res.status(code).json(body)`. -/
def jsonResponse (code : Nat) (body : Json) : Response :=
  { status := code, contentType := "application/json", body := .json body }

/-- The `updateInfo` object of the JSON handler. -/
def updateInfo (name sha512 : String) (size : Nat) (now : String) : Json :=
  .obj [("version", .str "1.2.0"),
        ("files", .arr [.obj [
            ("url", .str ("http://localhost:" ++ toString port ++ "/updates/" ++ name)),
            ("sha512", .str sha512),
            ("size", .num size)]]),
        ("path", .str name),
        ("sha512", .str sha512),
        ("releaseDate", .str now),
        ("releaseName", .str "Harobot Blockly Editor v1.2.0"),
        ("releaseNotes", .str "测试版本V1.2，新增在线更新功能，修复了一些bug")]

/-- Handler of `GET /updates/latest`. -/
def latest (env : Env) (query : Query) (now : String) : Response × List Event :=
  let platform := jsOr query.platform "win32"
  let arch := jsOr query.arch "x64"
  let fileName := fileName platform arch
  let filePath := pathJoin env.pathFlavor (updatesDir env) fileName
  if !existsSync env filePath then
    (jsonResponse 404 notFoundBody, [.existsSync filePath])
  else
    match calculateSHA512 env filePath with
    | .error message =>
      (jsonResponse 500 (internalErrorBody message),
        [.existsSync filePath, .createReadStream filePath])
    | .ok sha512 =>
      match getFileSize env filePath with
      | .error message =>
        (jsonResponse 500 (internalErrorBody message),
          [.existsSync filePath, .createReadStream filePath, .statSync filePath])
      | .ok size =>
        (jsonResponse 200 (updateInfo fileName sha512 size now),
          [.existsSync filePath, .createReadStream filePath, .statSync filePath])

/-- The `yamlContent` template literal of the YAML handler. -/
def yamlContent (platform arch sha512 : String) (size : Nat) (now : String) : String :=
  "version: 1.2.0\n" ++
  "files:\n" ++
  "  - url: HarobotBlocklyEditor-1.2.0-" ++ platform ++ "-" ++ arch ++ ".exe\n" ++
  "    sha512: " ++ sha512 ++ "\n" ++
  "    size: " ++ toString size ++ "\n" ++
  "path: HarobotBlocklyEditor-1.2.0-" ++ platform ++ "-" ++ arch ++ ".exe\n" ++
  "sha512: " ++ sha512 ++ "\n" ++
  "releaseDate: \x27" ++ now ++ "\x27\n" ++
  "releaseName: \x27Harobot Blockly Editor v1.2.0\x27\n" ++
  "releaseNotes: \x27测试版本V1.2，新增在线更新功能，修复了一些bug\x27"

/-- Handler of `GET /updates/latest.yml`. -/
def latestYml (env : Env) (query : Query) (now : String) : Response × List Event :=
  let platform := jsOr query.platform "win32"
  let arch := jsOr query.arch "x64"
  let fileName := fileName platform arch
  let filePath := pathJoin env.pathFlavor (updatesDir env) fileName
  if !existsSync env filePath then
    (jsonResponse 404 notFoundBody, [.existsSync filePath])
  else
    match calculateSHA512 env filePath with
    | .error message =>
      (jsonResponse 500 (internalErrorBody message),
        [.existsSync filePath, .createReadStream filePath])
    | .ok sha512 =>
      match getFileSize env filePath with
      | .error message =>
        (jsonResponse 500 (internalErrorBody message),
          [.existsSync filePath, .createReadStream filePath, .statSync filePath])
      | .ok size =>
        ({ status := 200, contentType := "text/yaml",
           body := .text (yamlContent platform arch sha512 size now) },
          [.existsSync filePath, .createReadStream filePath, .statSync filePath])

/-- The example file structure printed by the start-up banner. -/
def exampleFileStructure : List String :=
  ["HarobotBlocklyEditor-1.2.0-win32-x64.exe",
   "HarobotBlocklyEditor-1.2.0-darwin-x64.dmg",
   "HarobotBlocklyEditor-1.2.0-linux-x64.AppImage"]

/-- The file name both handlers compute for a query (`fileName` after the
two `||` defaults). -/
def requestedFileName (q : Query) : String :=
  fileName (jsOr q.platform "win32") (jsOr q.arch "x64")

/-- The path both handlers compute for a query (`filePath`). -/
def requestedPath (env : Env) (q : Query) : Path :=
  pathJoin env.pathFlavor (updatesDir env) (requestedFileName q)

/-- The path an operation acts on. -/
def Event.path : Event → Path
  | .existsSync p => p
  | .createReadStream p => p
  | .statSync p => p

/-- The two update routes registered with `app.get`. -/
inductive Endpoint where
  | latest
  | latestYml
  deriving DecidableEq, Repr

/-- Dispatch of a request to its handler. -/
def handle (env : Env) (ep : Endpoint) (q : Query) (now : String) : Response × List Event :=
  match ep with
  | .latest => latest env q now
  | .latestYml => latestYml env q now

/-- Serving a sequence of requests against an unchanged file system.  The
module keeps no mutable state, so each request is handled on its own. -/
def serveAll (env : Env) (reqs : List (Endpoint × Query × String)) :
    List (Response × List Event) :=
  reqs.map (fun r => handle env r.1 r.2.1 r.2.2)

/-- Platform tokens named by the data model. -/
def knownPlatforms : List String := ["win32", "darwin", "linux"]

/-- Architecture tokens named by the data model. -/
def knownArchs : List String := ["x64", "arm64"]

/-- A field of the JSON body of a response, if the body is a JSON object
having it. -/
def Response.jsonField (r : Response) (key : String) : Option Json :=
  match r.body with
  | .json j => j.field key
  | .text _ => none

/-- The text body of a response, if it was sent with `res.send`. -/
def Response.textBody (r : Response) : Option String :=
  match r.body with
  | .json _ => none
  | .text s => some s

/-- The body template of the YAML endpoint as the interface description gives
it, line by line: `version`, `files`, the single file entry (`url`, `sha512`,
`size`), `path`, `sha512`, `releaseDate`, `releaseName`, `releaseNotes`. -/
def specYamlLines (version filename digest : String) (size : Nat)
    (iso8601 releaseName releaseNotes : String) : List String :=
  ["version: " ++ version,
   "files:",
   "  - url: " ++ filename,
   "    sha512: " ++ digest,
   "    size: " ++ toString size,
   "path: " ++ filename,
   "sha512: " ++ digest,
   "releaseDate: \x27" ++ iso8601 ++ "\x27",
   "releaseName: \x27" ++ releaseName ++ "\x27",
   "releaseNotes: \x27" ++ releaseNotes ++ "\x27"]

/-! ## A concrete deployment used to exercise the model -/

/-- A stand-in digest function for concrete runs: one lowercase hex digit per
byte.  (The theorems below hold for every digest function.) -/
def demoDigest (bs : Bytes) : String :=
  String.mk (bs.map (fun b => Nat.digitChar (b.val % 16)))

/-- A readable file of four bytes, streamed in two chunks. -/
def demoFile : FileNode :=
  { chunks := [[1, 2], [3, 4]], readError := none, statError := none }

/-- A file whose read stream fails after the first chunk. -/
def unreadableFile : FileNode :=
  { chunks := [[1, 2]], readError := some "EIO: i/o error, read", statError := none }

/-- A readable file for which `statSync` throws. -/
def unstatableFile : FileNode :=
  { chunks := [[1, 2]], readError := none,
    statError := some "EACCES: permission denied, stat" }

/-- A server installed in `/srv/app` whose updates directory holds exactly the
Windows installer. -/
def demoEnv : Env :=
  { pathFlavor := .posix,
    dirname := ["srv", "app"],
    fs := fun p =>
      if p = ["srv", "app", "updates", "HarobotBlocklyEditor-1.2.0-win32-x64.exe"]
      then some demoFile else none,
    sha512Hex := demoDigest }

/-- A server whose Windows installer cannot be read and whose Linux artifact
cannot be inspected. -/
def brokenEnv : Env :=
  { pathFlavor := .posix,
    dirname := ["srv", "app"],
    fs := fun p =>
      if p = ["srv", "app", "updates", "HarobotBlocklyEditor-1.2.0-win32-x64.exe"]
      then some unreadableFile
      else if p = ["srv", "app", "updates", "HarobotBlocklyEditor-1.2.0-linux-x64.exe"]
      then some unstatableFile
      else none,
    sha512Hex := demoDigest }

/-- The query `?platform=win32&arch=x64`. -/
def winQuery : Query := { platform := some "win32", arch := some "x64" }

/-- A server whose installation directory holds a file next to (not inside)
the updates directory. -/
def leakyEnv : Env :=
  { pathFlavor := .posix,
    dirname := ["srv", "app"],
    fs := fun p => if p = ["srv", "app", "secret-x64.exe"] then some demoFile else none,
    sha512Hex := demoDigest }

/-- The same installation on a Windows host (`C:\srv\app`). -/
def windowsEnv : Env :=
  { pathFlavor := .win32,
    dirname := ["srv", "app"],
    fs := fun p => if p = ["srv", "app", "secret-x64.exe"] then some demoFile else none,
    sha512Hex := demoDigest }

/-- A server whose updates directory holds exactly the files of the example
file structure. -/
def exampleEnv : Env :=
  { pathFlavor := .posix,
    dirname := ["srv", "app"],
    fs := fun p =>
      if exampleFileStructure.any (fun n => p == ["srv", "app", "updates", n])
      then some demoFile else none,
    sha512Hex := demoDigest }

/-- The query `?platform=x/../../secret&arch=x64`. -/
def traversalQuery : Query := { platform := some "x/../../secret", arch := some "x64" }

/-- The query `?platform=x\..\..\secret&arch=x64` (backslashes). -/
def backslashQuery : Query := { platform := some "x\\..\\..\\secret", arch := some "x64" }

/-- The query `?platform=a/b&arch=x64`. -/
def subdirQuery : Query := { platform := some "a/b", arch := some "x64" }

/-- The query `?platform=darwin&arch=x64`. -/
def darwinQuery : Query := { platform := some "darwin", arch := some "x64" }

/-- The query `?platform=linux&arch=x64`. -/
def linuxQuery : Query := { platform := some "linux", arch := some "x64" }

/-- The query `?platform=solaris&arch=x64`: a platform token the data model
does not name. -/
def solarisQuery : Query := { platform := some "solaris", arch := some "x64" }

/-- The query `?platform=linux&arch=arm64`. -/
def linuxArmQuery : Query := { platform := some "linux", arch := some "arm64" }

/-! ## Auxiliary lemmas -/

theorem foldl_append_flatten (chunks : List Bytes) (acc : Bytes) :
    chunks.foldl (fun h data => h ++ data) acc = acc ++ chunks.flatten := by
  induction chunks generalizing acc with
  | nil => simp
  | cons c cs ih => simp [List.foldl_cons, ih, List.append_assoc]

theorem calculateSHA512_ok (env : Env) (p : Path) (node : FileNode)
    (hfile : env.fs p = some node) (hread : node.readError = none) :
    calculateSHA512 env p = .ok (env.sha512Hex node.content) := by
  simp [calculateSHA512, hfile, hread, foldl_append_flatten, FileNode.content]

theorem calculateSHA512_error (env : Env) (p : Path) (node : FileNode) (e : String)
    (hfile : env.fs p = some node) (hread : node.readError = some e) :
    calculateSHA512 env p = .error e := by
  simp [calculateSHA512, hfile, hread]

theorem getFileSize_ok (env : Env) (p : Path) (node : FileNode)
    (hfile : env.fs p = some node) (hstat : node.statError = none) :
    getFileSize env p = .ok node.content.length := by
  simp [getFileSize, hfile, hstat]

theorem getFileSize_error (env : Env) (p : Path) (node : FileNode) (e : String)
    (hfile : env.fs p = some node) (hstat : node.statError = some e) :
    getFileSize env p = .error e := by
  simp [getFileSize, hfile, hstat]

theorem existsSync_of_file (env : Env) (p : Path) (node : FileNode)
    (hfile : env.fs p = some node) : existsSync env p = true := by
  simp [existsSync, hfile]

theorem splitChar_of_not_mem (sep : Char) (cs : List Char) (h : sep ∉ cs) :
    splitChar sep cs = [cs] := by
  induction cs with
  | nil => rfl
  | cons c cs ih =>
    have hc : c ≠ sep := fun e => h (by simp [e])
    have hcs : sep ∉ cs := fun m => h (List.mem_cons_of_mem _ m)
    simp [splitChar, hc, ih hcs]

theorem splitChar_append_sep (sep : Char) (a rest : List Char) (h : sep ∉ a) :
    splitChar sep (a ++ sep :: rest) = a :: splitChar sep rest := by
  induction a with
  | nil => simp [splitChar]
  | cons c cs ih =>
    have hc : c ≠ sep := fun e => h (by simp [e])
    have hcs : sep ∉ cs := fun m => h (List.mem_cons_of_mem _ m)
    simp [splitChar, hc, ih hcs]

theorem lines_single (l : String) (h : '\n' ∉ l.data) : lines l = [l] := by
  simp [lines, splitChar_of_not_mem _ _ h]

theorem lines_cons (l rest : String) (h : '\n' ∉ l.data) :
    lines (l ++ "\n" ++ rest) = l :: lines rest := by
  have e : (l ++ "\n" ++ rest).data = l.data ++ '\n' :: rest.data := by
    simp [String.data_append]
  simp [lines, e, splitChar_append_sep _ _ _ h]

theorem digitChar_ne_newline : ∀ d, d < 10 → Nat.digitChar d ≠ '\n' := by
  decide

theorem toDigitsCore_no_newline (fuel n : Nat) (ds : List Char) (h : '\n' ∉ ds) :
    '\n' ∉ Nat.toDigitsCore 10 fuel n ds := by
  induction fuel generalizing n ds with
  | zero => simpa [Nat.toDigitsCore] using h
  | succ f ih =>
    have hd : '\n' ∉ Nat.digitChar (n % 10) :: ds := by
      intro m
      rcases List.mem_cons.1 m with e | m
      · exact digitChar_ne_newline _ (Nat.mod_lt _ (by decide)) e.symm
      · exact h m
    unfold Nat.toDigitsCore
    dsimp only
    split
    · exact hd
    · exact ih _ _ hd

theorem toString_nat_no_newline (n : Nat) : '\n' ∉ (toString n).data := by
  show '\n' ∉ (Nat.repr n).data
  simp only [Nat.repr, List.asString, Nat.toDigits]
  exact toDigitsCore_no_newline _ _ _ (by simp)

/-- The template literal of the YAML handler is the ten template lines joined
by line feeds. -/
theorem yamlContent_eq_template (p a d : String) (n : Nat) (now : String) :
    yamlContent p a d n now =
      "\n".intercalate (specYamlLines "1.2.0" (fileName p a) d n now
        "Harobot Blockly Editor v1.2.0"
        "测试版本V1.2，新增在线更新功能，修复了一些bug") := by
  apply String.ext
  simp only [yamlContent, specYamlLines, fileName, String.intercalate, String.intercalate.go,
    String.data_append, List.append_assoc]
  rfl

/-- The JSON handler on a readable artifact. -/
theorem latest_of_readable (env : Env) (q : Query) (now : String) (node : FileNode)
    (hfile : env.fs (pathJoin env.pathFlavor (updatesDir env)
      (fileName (jsOr q.platform "win32") (jsOr q.arch "x64"))) = some node)
    (hread : node.readError = none) (hstat : node.statError = none) :
    latest env q now =
      (jsonResponse 200 (updateInfo (fileName (jsOr q.platform "win32") (jsOr q.arch "x64"))
          (env.sha512Hex node.content) node.content.length now),
        [.existsSync (pathJoin env.pathFlavor (updatesDir env)
            (fileName (jsOr q.platform "win32") (jsOr q.arch "x64"))),
         .createReadStream (pathJoin env.pathFlavor (updatesDir env)
            (fileName (jsOr q.platform "win32") (jsOr q.arch "x64"))),
         .statSync (pathJoin env.pathFlavor (updatesDir env)
            (fileName (jsOr q.platform "win32") (jsOr q.arch "x64")))]) := by
  simp [latest, existsSync_of_file env _ node hfile,
    calculateSHA512_ok env _ node hfile hread, getFileSize_ok env _ node hfile hstat]

/-- The YAML handler on a readable artifact. -/
theorem latestYml_of_readable (env : Env) (q : Query) (now : String) (node : FileNode)
    (hfile : env.fs (pathJoin env.pathFlavor (updatesDir env)
      (fileName (jsOr q.platform "win32") (jsOr q.arch "x64"))) = some node)
    (hread : node.readError = none) (hstat : node.statError = none) :
    latestYml env q now =
      ({ status := 200, contentType := "text/yaml",
         body := .text (yamlContent (jsOr q.platform "win32") (jsOr q.arch "x64")
           (env.sha512Hex node.content) node.content.length now) },
        [.existsSync (pathJoin env.pathFlavor (updatesDir env)
            (fileName (jsOr q.platform "win32") (jsOr q.arch "x64"))),
         .createReadStream (pathJoin env.pathFlavor (updatesDir env)
            (fileName (jsOr q.platform "win32") (jsOr q.arch "x64"))),
         .statSync (pathJoin env.pathFlavor (updatesDir env)
            (fileName (jsOr q.platform "win32") (jsOr q.arch "x64")))]) := by
  simp [latestYml, existsSync_of_file env _ node hfile,
    calculateSHA512_ok env _ node hfile hread, getFileSize_ok env _ node hfile hstat]

theorem demoEnv_file :
    demoEnv.fs (pathJoin demoEnv.pathFlavor (updatesDir demoEnv)
      (fileName (jsOr winQuery.platform "win32") (jsOr winQuery.arch "x64"))) = some demoFile := by
  decide

theorem latest_not_found (env : Env) (q : Query) (now : String)
    (hfile : env.fs (requestedPath env q) = none) :
    latest env q now = (jsonResponse 404 notFoundBody, [.existsSync (requestedPath env q)]) := by
  have h : env.fs (pathJoin env.pathFlavor (updatesDir env)
      (fileName (jsOr q.platform "win32") (jsOr q.arch "x64"))) = none := hfile
  simp [latest, existsSync, h, requestedPath, requestedFileName]

theorem latestYml_not_found (env : Env) (q : Query) (now : String)
    (hfile : env.fs (requestedPath env q) = none) :
    latestYml env q now = (jsonResponse 404 notFoundBody, [.existsSync (requestedPath env q)]) := by
  have h : env.fs (pathJoin env.pathFlavor (updatesDir env)
      (fileName (jsOr q.platform "win32") (jsOr q.arch "x64"))) = none := hfile
  simp [latestYml, existsSync, h, requestedPath, requestedFileName]

theorem intercalate_go_append (s : String) (as : List String) (x acc : String) :
    String.intercalate.go (x ++ acc) s as = x ++ String.intercalate.go acc s as := by
  induction as generalizing acc with
  | nil => rfl
  | cons a as ih =>
    simp only [String.intercalate.go]
    rw [String.append_assoc, String.append_assoc, ih, String.append_assoc]

theorem intercalate_cons_cons (s a b : String) (bs : List String) :
    s.intercalate (a :: b :: bs) = a ++ s ++ s.intercalate (b :: bs) := by
  simp only [String.intercalate, String.intercalate.go]
  rw [intercalate_go_append]

theorem lines_intercalate (l : String) (ls : List String)
    (h : ∀ x ∈ l :: ls, '\n' ∉ x.data) : lines ("\n".intercalate (l :: ls)) = l :: ls := by
  induction ls generalizing l with
  | nil => exact lines_single l (h l (by simp))
  | cons b bs ih =>
    rw [intercalate_cons_cons, lines_cons _ _ (h l (by simp)),
      ih b (fun x hx => h x (List.mem_cons_of_mem _ hx))]

theorem not_mem_data_append {c : Char} (a b : String) (ha : c ∉ a.data) (hb : c ∉ b.data) :
    c ∉ (a ++ b).data := by
  simp [String.data_append, ha, hb]

theorem specYamlLines_no_newline (version filename digest : String) (size : Nat)
    (iso8601 releaseName releaseNotes : String)
    (hv : '\n' ∉ version.data) (hf : '\n' ∉ filename.data) (hd : '\n' ∉ digest.data)
    (hi : '\n' ∉ iso8601.data) (hn : '\n' ∉ releaseName.data) (ht : '\n' ∉ releaseNotes.data) :
    ∀ x ∈ specYamlLines version filename digest size iso8601 releaseName releaseNotes,
      '\n' ∉ x.data := by
  have hs := toString_nat_no_newline size
  intro x hx
  simp only [specYamlLines, List.mem_cons, List.mem_singleton, List.not_mem_nil, or_false] at hx
  rcases hx with e | e | e | e | e | e | e | e | e | e <;> subst e
  · exact not_mem_data_append _ _ (by decide) hv
  · decide
  · exact not_mem_data_append _ _ (by decide) hf
  · exact not_mem_data_append _ _ (by decide) hd
  · exact not_mem_data_append _ _ (by decide) hs
  · exact not_mem_data_append _ _ (by decide) hf
  · exact not_mem_data_append _ _ (by decide) hd
  · exact not_mem_data_append _ _ (not_mem_data_append _ _ (by decide) hi) (by decide)
  · exact not_mem_data_append _ _ (not_mem_data_append _ _ (by decide) hn) (by decide)
  · exact not_mem_data_append _ _ (not_mem_data_append _ _ (by decide) ht) (by decide)

theorem fileName_no_newline (p a : String) (hp : '\n' ∉ p.data) (ha : '\n' ∉ a.data) :
    '\n' ∉ (fileName p a).data := by
  unfold fileName
  exact not_mem_data_append _ _ (not_mem_data_append _ _ (not_mem_data_append _ _
    (not_mem_data_append _ _ (by decide) hp) (by decide)) ha) (by decide)

theorem yamlContent_second_line (p a d : String) (n : Nat) (now : String) :
    (lines (yamlContent p a d n now)).get? 1 = some "files:" := by
  rw [yamlContent_eq_template]
  simp only [specYamlLines]
  rw [intercalate_cons_cons, intercalate_cons_cons, lines_cons _ _ (by decide),
    lines_cons _ _ (by decide)]
  rfl

/-! ## Successful answers -/

/-- C1: when the artifact file of the request exists and is readable with
content `B`, `GET /updates/latest` answers 200 with a JSON object whose
`version` is `1.2.0`, whose `files` has exactly one entry carrying the absolute
URL `http://localhost:3000/updates/<file name>`, the hex digest of `B` and the
length of `B`, whose `path` is the file name and whose top-level `sha512` is the
digest of the entry. -/
theorem latest_success (env : Env) (q : Query) (now : String) (node : FileNode)
    (hfile : env.fs (requestedPath env q) = some node)
    (hread : node.readError = none) (hstat : node.statError = none) :
    (latest env q now).1.status = 200 ∧
    ∃ j, (latest env q now).1.body = .json j ∧
      j.field "version" = some (.str "1.2.0") ∧
      j.field "files" = some (.arr [.obj [
        ("url", .str ("http://localhost:3000/updates/" ++ requestedFileName q)),
        ("sha512", .str (env.sha512Hex node.content)),
        ("size", .num node.content.length)]]) ∧
      j.field "path" = some (.str (requestedFileName q)) ∧
      j.field "sha512" = some (.str (env.sha512Hex node.content)) ∧
      j.field "sha512" =
        ((j.field "files").bind (fun fs => fs.index 0)).bind (fun f => f.field "sha512") := by
  rw [latest_of_readable env q now node hfile hread hstat]
  refine ⟨rfl, _, rfl, ?_, ?_, ?_, ?_, ?_⟩ <;>
    simp [updateInfo, Json.field, Json.index, requestedFileName, port]
  rfl

/-- Witness for C1: the Windows installer of the demonstration deployment. -/
theorem latest_success_witness :
    demoEnv.fs (requestedPath demoEnv winQuery) = some demoFile ∧
    demoFile.readError = none ∧ demoFile.statError = none ∧
    ((latest demoEnv winQuery "2024-01-01T00:00:00.000Z").1.status = 200 ∧
    ∃ j, (latest demoEnv winQuery "2024-01-01T00:00:00.000Z").1.body = .json j ∧
      j.field "version" = some (.str "1.2.0") ∧
      j.field "files" = some (.arr [.obj [
        ("url", .str ("http://localhost:3000/updates/" ++ requestedFileName winQuery)),
        ("sha512", .str (demoEnv.sha512Hex demoFile.content)),
        ("size", .num demoFile.content.length)]]) ∧
      j.field "path" = some (.str (requestedFileName winQuery)) ∧
      j.field "sha512" = some (.str (demoEnv.sha512Hex demoFile.content)) ∧
      j.field "sha512" =
        ((j.field "files").bind (fun fs => fs.index 0)).bind (fun f => f.field "sha512")) :=
  ⟨by decide, rfl, rfl,
    latest_success demoEnv winQuery "2024-01-01T00:00:00.000Z" demoFile (by decide) rfl rfl⟩

/-- C2: when the artifact file of the request exists and is readable with digest
`D` and size `n`, `GET /updates/latest.yml` answers 200 with content type
`text/yaml` and a body that is the ten template lines joined by line feeds,
filled verbatim with version `1.2.0`, the relative file name as `url` and
`path`, `D` as both digests and `n` as size.  The second line of the body is
`files:`, the seventh template line is `sha512: D`, and when none of the
inserted strings contains a line feed the body has exactly these ten lines. -/
theorem latestYml_success (env : Env) (q : Query) (now : String) (node : FileNode)
    (hfile : env.fs (requestedPath env q) = some node)
    (hread : node.readError = none) (hstat : node.statError = none) :
    (latestYml env q now).1.status = 200 ∧
    (latestYml env q now).1.contentType = "text/yaml" ∧
    ∃ body, (latestYml env q now).1.body = .text body ∧
      body = "\n".intercalate (specYamlLines "1.2.0" (requestedFileName q)
        (env.sha512Hex node.content) node.content.length now
        "Harobot Blockly Editor v1.2.0"
        "测试版本V1.2，新增在线更新功能，修复了一些bug") ∧
      (specYamlLines "1.2.0" (requestedFileName q)
        (env.sha512Hex node.content) node.content.length now
        "Harobot Blockly Editor v1.2.0"
        "测试版本V1.2，新增在线更新功能，修复了一些bug").length = 10 ∧
      (lines body).get? 1 = some "files:" ∧
      (specYamlLines "1.2.0" (requestedFileName q)
        (env.sha512Hex node.content) node.content.length now
        "Harobot Blockly Editor v1.2.0"
        "测试版本V1.2，新增在线更新功能，修复了一些bug").get? 6
          = some ("sha512: " ++ env.sha512Hex node.content) ∧
      ('\n' ∉ (jsOr q.platform "win32").data → '\n' ∉ (jsOr q.arch "x64").data →
        '\n' ∉ (env.sha512Hex node.content).data → '\n' ∉ now.data →
        lines body = specYamlLines "1.2.0" (requestedFileName q)
          (env.sha512Hex node.content) node.content.length now
          "Harobot Blockly Editor v1.2.0"
          "测试版本V1.2，新增在线更新功能，修复了一些bug") := by
  rw [latestYml_of_readable env q now node hfile hread hstat]
  refine ⟨rfl, rfl, _, rfl, ?_, rfl, ?_, rfl, ?_⟩
  · exact yamlContent_eq_template _ _ _ _ _
  · exact yamlContent_second_line _ _ _ _ _
  · intro hp ha hd hn
    rw [yamlContent_eq_template]
    exact lines_intercalate _ _ (specYamlLines_no_newline _ _ _ _ _ _ _ (by decide)
      (fileName_no_newline _ _ hp ha) hd hn (by decide) (by decide))

/-- Witness for C2: the Windows installer of the demonstration deployment; the
body has exactly the ten template lines. -/
theorem latestYml_success_witness :
    demoEnv.fs (requestedPath demoEnv winQuery) = some demoFile ∧
    demoFile.readError = none ∧ demoFile.statError = none ∧
    (latestYml demoEnv winQuery "2024-01-01T00:00:00.000Z").1.status = 200 ∧
    (latestYml demoEnv winQuery "2024-01-01T00:00:00.000Z").1.contentType = "text/yaml" ∧
    ∃ body, (latestYml demoEnv winQuery "2024-01-01T00:00:00.000Z").1.body = .text body ∧
      lines body =
        ["version: 1.2.0",
         "files:",
         "  - url: HarobotBlocklyEditor-1.2.0-win32-x64.exe",
         "    sha512: 1234",
         "    size: 4",
         "path: HarobotBlocklyEditor-1.2.0-win32-x64.exe",
         "sha512: 1234",
         "releaseDate: \x272024-01-01T00:00:00.000Z\x27",
         "releaseName: \x27Harobot Blockly Editor v1.2.0\x27",
         "releaseNotes: \x27测试版本V1.2，新增在线更新功能，修复了一些bug\x27"] := by
  obtain ⟨hs, hc, body, hb, _, _, _, _, hl⟩ :=
    latestYml_success demoEnv winQuery "2024-01-01T00:00:00.000Z" demoFile (by decide) rfl rfl
  refine ⟨by decide, rfl, rfl, hs, hc, body, hb, ?_⟩
  rw [hl (by decide) (by decide) (by decide) (by decide)]
  decide

/-! ## Error answers -/

/-- C3: when the artifact file of the request does not exist, both update endpoints
answer 404 with a JSON body that has an `error` and a `message`
field, and the only file-system operation performed is the existence check: no
read stream is opened and no size is taken. -/
theorem update_not_found (env : Env) (q : Query) (now : String)
    (hfile : env.fs (requestedPath env q) = none) :
    ((latest env q now).1.status = 404 ∧
      (∃ j e m, (latest env q now).1.body = .json j ∧
        j.field "error" = some (.str e) ∧ j.field "message" = some (.str m)) ∧
      (latest env q now).2 = [.existsSync (requestedPath env q)] ∧
      (∀ p, Event.createReadStream p ∉ (latest env q now).2 ∧
        Event.statSync p ∉ (latest env q now).2)) ∧
    ((latestYml env q now).1.status = 404 ∧
      (∃ j e m, (latestYml env q now).1.body = .json j ∧
        j.field "error" = some (.str e) ∧ j.field "message" = some (.str m)) ∧
      (latestYml env q now).2 = [.existsSync (requestedPath env q)] ∧
      (∀ p, Event.createReadStream p ∉ (latestYml env q now).2 ∧
        Event.statSync p ∉ (latestYml env q now).2)) := by
  rw [latest_not_found env q now hfile, latestYml_not_found env q now hfile]
  refine ⟨⟨rfl, ⟨_, _, _, rfl, rfl, rfl⟩, rfl, ?_⟩, ⟨rfl, ⟨_, _, _, rfl, rfl, rfl⟩, rfl, ?_⟩⟩ <;>
    intro p <;> simp

/-- Witness for C3: `platform=linux&arch=arm64` with no such file present. -/
theorem update_not_found_witness :
    demoEnv.fs (requestedPath demoEnv linuxArmQuery) = none ∧
    (latest demoEnv linuxArmQuery "2024-01-01T00:00:00.000Z").1.status = 404 ∧
    (latestYml demoEnv linuxArmQuery "2024-01-01T00:00:00.000Z").1.status = 404 :=
  have h := update_not_found demoEnv linuxArmQuery "2024-01-01T00:00:00.000Z" (by decide)
  ⟨by decide, h.1.1, h.2.1⟩

/-- The JSON handler when the read stream fails. -/
theorem latest_of_read_error (env : Env) (q : Query) (now : String) (node : FileNode)
    (e : String) (hfile : env.fs (requestedPath env q) = some node)
    (hread : node.readError = some e) :
    latest env q now = (jsonResponse 500 (internalErrorBody e),
      [.existsSync (requestedPath env q), .createReadStream (requestedPath env q)]) := by
  have h : env.fs (pathJoin env.pathFlavor (updatesDir env)
      (fileName (jsOr q.platform "win32") (jsOr q.arch "x64"))) = some node := hfile
  simp [latest, existsSync_of_file env _ node h, calculateSHA512_error env _ node e h hread,
    requestedPath, requestedFileName]

/-- The JSON handler when `statSync` throws. -/
theorem latest_of_stat_error (env : Env) (q : Query) (now : String) (node : FileNode)
    (e : String) (hfile : env.fs (requestedPath env q) = some node)
    (hread : node.readError = none) (hstat : node.statError = some e) :
    latest env q now = (jsonResponse 500 (internalErrorBody e),
      [.existsSync (requestedPath env q), .createReadStream (requestedPath env q),
       .statSync (requestedPath env q)]) := by
  have h : env.fs (pathJoin env.pathFlavor (updatesDir env)
      (fileName (jsOr q.platform "win32") (jsOr q.arch "x64"))) = some node := hfile
  simp [latest, existsSync_of_file env _ node h, calculateSHA512_ok env _ node h hread,
    getFileSize_error env _ node e h hstat, requestedPath, requestedFileName]

/-- The YAML handler when the read stream fails. -/
theorem latestYml_of_read_error (env : Env) (q : Query) (now : String) (node : FileNode)
    (e : String) (hfile : env.fs (requestedPath env q) = some node)
    (hread : node.readError = some e) :
    latestYml env q now = (jsonResponse 500 (internalErrorBody e),
      [.existsSync (requestedPath env q), .createReadStream (requestedPath env q)]) := by
  have h : env.fs (pathJoin env.pathFlavor (updatesDir env)
      (fileName (jsOr q.platform "win32") (jsOr q.arch "x64"))) = some node := hfile
  simp [latestYml, existsSync_of_file env _ node h, calculateSHA512_error env _ node e h hread,
    requestedPath, requestedFileName]

/-- The YAML handler when `statSync` throws. -/
theorem latestYml_of_stat_error (env : Env) (q : Query) (now : String) (node : FileNode)
    (e : String) (hfile : env.fs (requestedPath env q) = some node)
    (hread : node.readError = none) (hstat : node.statError = some e) :
    latestYml env q now = (jsonResponse 500 (internalErrorBody e),
      [.existsSync (requestedPath env q), .createReadStream (requestedPath env q),
       .statSync (requestedPath env q)]) := by
  have h : env.fs (pathJoin env.pathFlavor (updatesDir env)
      (fileName (jsOr q.platform "win32") (jsOr q.arch "x64"))) = some node := hfile
  simp [latestYml, existsSync_of_file env _ node h, calculateSHA512_ok env _ node h hread,
    getFileSize_error env _ node e h hstat, requestedPath, requestedFileName]

/-- C6: when the artifact file exists but streaming it fails with error `e`, or
streaming succeeds and taking its size fails with `e`, both update endpoints
answer 500 (not 200) with a JSON body whose `error` field is present and whose
`message` is exactly `e`. -/
theorem update_io_failure (env : Env) (q : Query) (now : String) (node : FileNode)
    (e : String) (hfile : env.fs (requestedPath env q) = some node)
    (hfail : node.readError = some e ∨ (node.readError = none ∧ node.statError = some e)) :
    ((latest env q now).1.status = 500 ∧
      (latest env q now).1.jsonField "message" = some (.str e) ∧
      (∃ t, (latest env q now).1.jsonField "error" = some (.str t))) ∧
    ((latestYml env q now).1.status = 500 ∧
      (latestYml env q now).1.jsonField "message" = some (.str e) ∧
      (∃ t, (latestYml env q now).1.jsonField "error" = some (.str t))) := by
  rcases hfail with hread | ⟨hread, hstat⟩
  · rw [latest_of_read_error env q now node e hfile hread,
      latestYml_of_read_error env q now node e hfile hread]
    exact ⟨⟨rfl, rfl, _, rfl⟩, ⟨rfl, rfl, _, rfl⟩⟩
  · rw [latest_of_stat_error env q now node e hfile hread hstat,
      latestYml_of_stat_error env q now node e hfile hread hstat]
    exact ⟨⟨rfl, rfl, _, rfl⟩, ⟨rfl, rfl, _, rfl⟩⟩

/-- Witness for C6: the unreadable Windows installer of the broken deployment. -/
theorem update_io_failure_witness :
    brokenEnv.fs (requestedPath brokenEnv winQuery) = some unreadableFile ∧
    unreadableFile.readError = some "EIO: i/o error, read" ∧
    (latest brokenEnv winQuery "2024-01-01T00:00:00.000Z").1.status = 500 ∧
    (latest brokenEnv winQuery "2024-01-01T00:00:00.000Z").1.jsonField "message"
      = some (.str "EIO: i/o error, read") ∧
    (latestYml brokenEnv winQuery "2024-01-01T00:00:00.000Z").1.status = 500 ∧
    (latestYml brokenEnv winQuery "2024-01-01T00:00:00.000Z").1.jsonField "message"
      = some (.str "EIO: i/o error, read") :=
  have h := update_io_failure brokenEnv winQuery "2024-01-01T00:00:00.000Z" unreadableFile
    "EIO: i/o error, read" (by decide) (Or.inl rfl)
  ⟨by decide, rfl, h.1.1, h.1.2.1, h.2.1, h.2.2.1⟩

/-- On the broken deployment the Linux artifact can be hashed but not
inspected: both endpoints answer 500 with the text of the `statSync` error. -/
theorem stat_failure_example :
    (latest brokenEnv linuxQuery "2024-01-01T00:00:00.000Z").1.status = 500 ∧
    (latest brokenEnv linuxQuery "2024-01-01T00:00:00.000Z").1.jsonField "message"
      = some (.str "EACCES: permission denied, stat") ∧
    (latestYml brokenEnv linuxQuery "2024-01-01T00:00:00.000Z").1.status = 500 ∧
    (latest brokenEnv linuxQuery "2024-01-01T00:00:00.000Z").2 =
      [.existsSync ["srv", "app", "updates", "HarobotBlocklyEditor-1.2.0-linux-x64.exe"],
       .createReadStream ["srv", "app", "updates", "HarobotBlocklyEditor-1.2.0-linux-x64.exe"],
       .statSync ["srv", "app", "updates", "HarobotBlocklyEditor-1.2.0-linux-x64.exe"]] :=
  ⟨by decide, rfl, by decide, by decide⟩

/-! ## Defaults of the query parameters -/

/-- The file-system operations of the JSON handler, in every case: the
existence check, then possibly the read stream, then possibly the size, all on
the path computed from the query. -/
theorem latest_trace_cases (env : Env) (q : Query) (now : String) :
    (latest env q now).2 = [.existsSync (requestedPath env q)] ∨
    (latest env q now).2 =
      [.existsSync (requestedPath env q), .createReadStream (requestedPath env q)] ∨
    (latest env q now).2 =
      [.existsSync (requestedPath env q), .createReadStream (requestedPath env q),
       .statSync (requestedPath env q)] := by
  simp only [latest, requestedPath, requestedFileName]
  split
  · exact Or.inl rfl
  · split
    · exact Or.inr (Or.inl rfl)
    · split
      · exact Or.inr (Or.inr rfl)
      · exact Or.inr (Or.inr rfl)

/-- The file-system operations of the YAML handler, in every case. -/
theorem latestYml_trace_cases (env : Env) (q : Query) (now : String) :
    (latestYml env q now).2 = [.existsSync (requestedPath env q)] ∨
    (latestYml env q now).2 =
      [.existsSync (requestedPath env q), .createReadStream (requestedPath env q)] ∨
    (latestYml env q now).2 =
      [.existsSync (requestedPath env q), .createReadStream (requestedPath env q),
       .statSync (requestedPath env q)] := by
  simp only [latestYml, requestedPath, requestedFileName]
  split
  · exact Or.inl rfl
  · split
    · exact Or.inr (Or.inl rfl)
    · split
      · exact Or.inr (Or.inr rfl)
      · exact Or.inr (Or.inr rfl)

theorem latest_trace_head (env : Env) (q : Query) (now : String) :
    (latest env q now).2.head? = some (.existsSync (requestedPath env q)) := by
  rcases latest_trace_cases env q now with h | h | h <;> rw [h] <;> rfl

theorem latestYml_trace_head (env : Env) (q : Query) (now : String) :
    (latestYml env q now).2.head? = some (.existsSync (requestedPath env q)) := by
  rcases latestYml_trace_cases env q now with h | h | h <;> rw [h] <;> rfl

theorem splitSegments_of_none (isSep : Char → Bool) (cs : List Char)
    (h : ∀ c ∈ cs, isSep c = false) : splitSegments isSep cs = [cs] := by
  induction cs with
  | nil => rfl
  | cons c cs ih =>
    have hc : isSep c = false := h c (by simp)
    have hcs : ∀ d ∈ cs, isSep d = false := fun d m => h d (List.mem_cons_of_mem _ m)
    simp [splitSegments, hc, ih hcs]

/-- Joining a directory with a plain file name (no separator of the host's
flavour, not empty, not `.` or `..`) appends the name. -/
theorem pathJoin_plain (flavor : PathFlavor) (base : Path) (name : String)
    (hsep : ∀ c ∈ name.data, flavor.isSeparator c = false)
    (hspecial : ¬ (name = "" ∨ name = ".")) (hdots : name ≠ "..") :
    pathJoin flavor base name = base ++ [name] := by
  simp [pathJoin, splitSegments_of_none _ _ hsep, normalizeStep, hspecial, hdots]

theorem forall_data_append (P : Char → Prop) (a b : String)
    (ha : ∀ c ∈ a.data, P c) (hb : ∀ c ∈ b.data, P c) : ∀ c ∈ (a ++ b).data, P c := by
  intro c hc
  rw [String.data_append, List.mem_append] at hc
  exact hc.elim (ha c) (hb c)

theorem template_literals_no_separator (flavor : PathFlavor) :
    (∀ c ∈ "HarobotBlocklyEditor-1.2.0-".data, flavor.isSeparator c = false) ∧
    (∀ c ∈ "-".data, flavor.isSeparator c = false) ∧
    (∀ c ∈ ".exe".data, flavor.isSeparator c = false) := by
  cases flavor <;> decide

theorem fileName_no_separator (flavor : PathFlavor) (p a : String)
    (hp : ∀ c ∈ p.data, flavor.isSeparator c = false)
    (ha : ∀ c ∈ a.data, flavor.isSeparator c = false) :
    ∀ c ∈ (fileName p a).data, flavor.isSeparator c = false := by
  obtain ⟨h1, h2, h3⟩ := template_literals_no_separator flavor
  unfold fileName
  exact forall_data_append _ _ _ (forall_data_append _ _ _ (forall_data_append _ _ _
    (forall_data_append _ _ _ h1 hp) h2) ha) h3

theorem fileName_data (p a : String) :
    (fileName p a).data =
      'H' :: ("arobotBlocklyEditor-1.2.0-".data ++ (p.data ++ ("-".data ++ (a.data ++ ".exe".data)))) := by
  simp only [fileName, String.data_append, List.append_assoc]
  rfl

theorem fileName_not_special (p a : String) :
    ¬ (fileName p a = "" ∨ fileName p a = ".") ∧ fileName p a ≠ ".." := by
  have key : ∀ s : String, s.data.head? ≠ some 'H' → fileName p a ≠ s := by
    intro s hs e
    apply hs
    rw [← e, fileName_data]
    rfl
  exact ⟨fun h => h.elim (key "" (by decide)) (key "." (by decide)), key ".." (by decide)⟩

/-- Without a separator of the host's flavour in the platform and the arch, the
path computed from the query is the updates directory followed by the file
name. -/
theorem requestedPath_plain (env : Env) (q : Query)
    (hp : ∀ c ∈ (jsOr q.platform "win32").data, env.pathFlavor.isSeparator c = false)
    (ha : ∀ c ∈ (jsOr q.arch "x64").data, env.pathFlavor.isSeparator c = false) :
    requestedPath env q = updatesDir env ++ [requestedFileName q] :=
  pathJoin_plain _ _ _ (fileName_no_separator _ _ _ hp ha) (fileName_not_special _ _).1
    (fileName_not_special _ _).2

theorem requestedPath_default (env : Env) :
    requestedPath env ⟨none, none⟩ =
      updatesDir env ++ ["HarobotBlocklyEditor-1.2.0-win32-x64.exe"] := by
  have h := requestedPath_plain env ⟨none, none⟩
    (by generalize env.pathFlavor = f; cases f <;> decide)
    (by generalize env.pathFlavor = f; cases f <;> decide)
  rw [h]
  rfl


/-- C5: on both update endpoints a request without `platform` is served exactly
as one with `platform=win32`, a request without `arch` exactly as one with
`arch=x64` (same file name, same response, same file-system operations), and
with both omitted the file looked up is
`HarobotBlocklyEditor-1.2.0-win32-x64.exe` in the updates directory. -/
theorem query_defaults (env : Env) (platform arch : Option String) (now : String) :
    (requestedFileName ⟨none, arch⟩ = requestedFileName ⟨some "win32", arch⟩ ∧
      latest env ⟨none, arch⟩ now = latest env ⟨some "win32", arch⟩ now ∧
      latestYml env ⟨none, arch⟩ now = latestYml env ⟨some "win32", arch⟩ now) ∧
    (requestedFileName ⟨platform, none⟩ = requestedFileName ⟨platform, some "x64"⟩ ∧
      latest env ⟨platform, none⟩ now = latest env ⟨platform, some "x64"⟩ now ∧
      latestYml env ⟨platform, none⟩ now = latestYml env ⟨platform, some "x64"⟩ now) ∧
    (requestedFileName ⟨none, none⟩ = "HarobotBlocklyEditor-1.2.0-win32-x64.exe" ∧
      (latest env ⟨none, none⟩ now).2.head? = some (.existsSync
        (updatesDir env ++ ["HarobotBlocklyEditor-1.2.0-win32-x64.exe"])) ∧
      (latestYml env ⟨none, none⟩ now).2.head? = some (.existsSync
        (updatesDir env ++ ["HarobotBlocklyEditor-1.2.0-win32-x64.exe"]))) := by
  refine ⟨⟨rfl, rfl, rfl⟩, ⟨rfl, rfl, rfl⟩, by decide, ?_, ?_⟩
  · rw [latest_trace_head, requestedPath_default]
  · rw [latestYml_trace_head, requestedPath_default]

/-- C4 fails as stated: the platform token `solaris` is not a recognised one,
yet the request is not served like `platform=win32&arch=x64`; the handlers look
for `HarobotBlocklyEditor-1.2.0-solaris-x64.exe` and answer 404, while the artifact
of the defaults exists and the win32 request answers 200. -/
theorem unknown_platform_not_defaulted :
    "solaris" ∉ knownPlatforms ∧ "x64" ∈ knownArchs ∧
    (latest demoEnv solarisQuery "2024-01-01T00:00:00.000Z").1.status = 404 ∧
    (latest demoEnv winQuery "2024-01-01T00:00:00.000Z").1.status = 200 ∧
    (latestYml demoEnv solarisQuery "2024-01-01T00:00:00.000Z").1.status = 404 ∧
    (latestYml demoEnv winQuery "2024-01-01T00:00:00.000Z").1.status = 200 ∧
    (latest demoEnv solarisQuery "2024-01-01T00:00:00.000Z").2 =
      [.existsSync ["srv", "app", "updates", "HarobotBlocklyEditor-1.2.0-solaris-x64.exe"]] ∧
    (latestYml demoEnv solarisQuery "2024-01-01T00:00:00.000Z").2 =
      [.existsSync ["srv", "app", "updates", "HarobotBlocklyEditor-1.2.0-solaris-x64.exe"]] := by
  decide

/-- C4 as amended: only an omitted or empty `platform` / `arch` falls back to
`win32` / `x64`.  A non-empty token, recognised or not, is used verbatim in the
file name; the request is not rejected as malformed, and when no file of that
name exists both endpoints answer 404 after the existence check.  An empty
`platform` is served as `win32` and an empty `arch` as `x64`. -/
theorem query_token_used_verbatim (env : Env) (p a : String) (now : String)
    (hp : p ≠ "") (ha : a ≠ "")
    (hnone : env.fs (pathJoin env.pathFlavor (updatesDir env) (fileName p a)) = none) :
    requestedFileName ⟨some p, some a⟩ = fileName p a ∧
    (latest env ⟨some p, some a⟩ now).1.status = 404 ∧
    (latestYml env ⟨some p, some a⟩ now).1.status = 404 ∧
    (latest env ⟨some p, some a⟩ now).2 =
      [.existsSync (pathJoin env.pathFlavor (updatesDir env) (fileName p a))] ∧
    (latestYml env ⟨some p, some a⟩ now).2 =
      [.existsSync (pathJoin env.pathFlavor (updatesDir env) (fileName p a))] ∧
    latest env ⟨some "", some a⟩ now = latest env ⟨some "win32", some a⟩ now ∧
    latestYml env ⟨some "", some a⟩ now = latestYml env ⟨some "win32", some a⟩ now ∧
    latest env ⟨some p, some ""⟩ now = latest env ⟨some p, some "x64"⟩ now ∧
    latestYml env ⟨some p, some ""⟩ now = latestYml env ⟨some p, some "x64"⟩ now := by
  have hname : requestedFileName ⟨some p, some a⟩ = fileName p a := by
    simp [requestedFileName, jsOr, hp, ha]
  have hpath : requestedPath env ⟨some p, some a⟩ = pathJoin env.pathFlavor (updatesDir env) (fileName p a) := by
    simp [requestedPath, hname]
  have hfile : env.fs (requestedPath env ⟨some p, some a⟩) = none := by rw [hpath]; exact hnone
  rw [latest_not_found env _ now hfile, latestYml_not_found env _ now hfile, hpath]
  exact ⟨hname, rfl, rfl, rfl, rfl, rfl, rfl, rfl, rfl⟩

/-- Witness for the amended C4: the token `solaris` on the demonstration
deployment. -/
theorem query_token_used_verbatim_witness :
    "solaris" ≠ "" ∧ "x64" ≠ "" ∧
    demoEnv.fs (pathJoin demoEnv.pathFlavor (updatesDir demoEnv) (fileName "solaris" "x64")) = none ∧
    requestedFileName ⟨some "solaris", some "x64"⟩ = fileName "solaris" "x64" ∧
    (latest demoEnv ⟨some "solaris", some "x64"⟩ "2024-01-01T00:00:00.000Z").1.status = 404 ∧
    (latestYml demoEnv ⟨some "solaris", some "x64"⟩ "2024-01-01T00:00:00.000Z").1.status = 404 :=
  have h := query_token_used_verbatim demoEnv "solaris" "x64" "2024-01-01T00:00:00.000Z"
    (by decide) (by decide) (by decide)
  ⟨by decide, by decide, by decide, h.1, h.2.1, h.2.2.1⟩

/-! ## Where the handlers look -/

/-- Every file-system operation of the JSON handler acts on the path computed
from the query. -/
theorem latest_trace_path (env : Env) (q : Query) (now : String) :
    ∀ ev ∈ (latest env q now).2, ev.path = requestedPath env q := by
  intro ev hev
  rcases latest_trace_cases env q now with h | h | h <;> rw [h] at hev <;>
    simp only [List.mem_cons, List.mem_singleton, List.not_mem_nil, or_false] at hev
  · subst hev; rfl
  · rcases hev with e | e <;> subst e <;> rfl
  · rcases hev with e | e | e <;> subst e <;> rfl

/-- Every file-system operation of the YAML handler acts on the path computed
from the query. -/
theorem latestYml_trace_path (env : Env) (q : Query) (now : String) :
    ∀ ev ∈ (latestYml env q now).2, ev.path = requestedPath env q := by
  intro ev hev
  rcases latestYml_trace_cases env q now with h | h | h <;> rw [h] at hev <;>
    simp only [List.mem_cons, List.mem_singleton, List.not_mem_nil, or_false] at hev
  · subst hev; rfl
  · rcases hev with e | e <;> subst e <;> rfl
  · rcases hev with e | e | e <;> subst e <;> rfl

/-- C7 fails as stated: `platform=x/../../secret` makes both handlers check and
hash `/srv/app/secret-x64.exe`, which lies outside the updates directory
`/srv/app/updates`, and answer 200 with its digest; `platform=a/b` makes them
look into a sub-directory of the updates directory. -/
theorem requested_path_escapes_updates_dir :
    updatesDir leakyEnv = ["srv", "app", "updates"] ∧
    (latest leakyEnv traversalQuery "2024-01-01T00:00:00.000Z").2 =
      [.existsSync ["srv", "app", "secret-x64.exe"],
       .createReadStream ["srv", "app", "secret-x64.exe"],
       .statSync ["srv", "app", "secret-x64.exe"]] ∧
    (latest leakyEnv traversalQuery "2024-01-01T00:00:00.000Z").1.status = 200 ∧
    (latestYml leakyEnv traversalQuery "2024-01-01T00:00:00.000Z").2 =
      [.existsSync ["srv", "app", "secret-x64.exe"],
       .createReadStream ["srv", "app", "secret-x64.exe"],
       .statSync ["srv", "app", "secret-x64.exe"]] ∧
    (latestYml leakyEnv traversalQuery "2024-01-01T00:00:00.000Z").1.status = 200 ∧
    (requestedPath leakyEnv traversalQuery).dropLast ≠ updatesDir leakyEnv ∧
    (latest leakyEnv subdirQuery "2024-01-01T00:00:00.000Z").2 =
      [.existsSync ["srv", "app", "updates", "HarobotBlocklyEditor-1.2.0-a", "b-x64.exe"]] ∧
    (requestedPath leakyEnv subdirQuery).dropLast ≠ updatesDir leakyEnv := by
  decide

/-- On a Windows host the backslash is a separator too:
`platform=x\..\..\secret` makes both handlers check and hash
`secret-x64.exe` in the installation directory, outside the updates
directory, although the value contains no `/`. -/
theorem backslash_traversal_on_windows :
    '/' ∉ (jsOr backslashQuery.platform "win32").data ∧
    updatesDir windowsEnv = ["srv", "app", "updates"] ∧
    (latest windowsEnv backslashQuery "2024-01-01T00:00:00.000Z").2 =
      [.existsSync ["srv", "app", "secret-x64.exe"],
       .createReadStream ["srv", "app", "secret-x64.exe"],
       .statSync ["srv", "app", "secret-x64.exe"]] ∧
    (latest windowsEnv backslashQuery "2024-01-01T00:00:00.000Z").1.status = 200 ∧
    (latestYml windowsEnv backslashQuery "2024-01-01T00:00:00.000Z").1.status = 200 ∧
    (latest demoEnv backslashQuery "2024-01-01T00:00:00.000Z").2 =
      [.existsSync ["srv", "app", "updates",
        "HarobotBlocklyEditor-1.2.0-x\\..\\..\\secret-x64.exe"]] := by
  decide

/-- C7 as amended: when neither the platform nor the arch used for the request
contains a path separator of the host the server runs on (`/` on a POSIX host;
`/` or `\` on a Windows host), the path the handlers check and hash is the
updates directory followed by the single segment of the file name, a direct
child of the updates directory; every file-system operation of both handlers
acts on that path. -/
theorem requested_path_direct_child (env : Env) (q : Query) (now : String)
    (hp : ∀ c ∈ (jsOr q.platform "win32").data, env.pathFlavor.isSeparator c = false)
    (ha : ∀ c ∈ (jsOr q.arch "x64").data, env.pathFlavor.isSeparator c = false) :
    requestedPath env q = updatesDir env ++ [requestedFileName q] ∧
    (requestedPath env q).dropLast = updatesDir env ∧
    (∀ ev ∈ (latest env q now).2, ev.path = updatesDir env ++ [requestedFileName q]) ∧
    (∀ ev ∈ (latestYml env q now).2, ev.path = updatesDir env ++ [requestedFileName q]) := by
  have hpath : requestedPath env q = updatesDir env ++ [requestedFileName q] :=
    requestedPath_plain env q hp ha
  refine ⟨hpath, by rw [hpath]; simp, ?_, ?_⟩
  · intro ev hev
    rw [← hpath]
    exact latest_trace_path env q now ev hev
  · intro ev hev
    rw [← hpath]
    exact latestYml_trace_path env q now ev hev

/-- Witness for the amended C7: the Windows request on the demonstration
deployment (POSIX host) and on the Windows host. -/
theorem requested_path_direct_child_witness :
    ((∀ c ∈ (jsOr winQuery.platform "win32").data, demoEnv.pathFlavor.isSeparator c = false) ∧
      (∀ c ∈ (jsOr winQuery.arch "x64").data, demoEnv.pathFlavor.isSeparator c = false) ∧
      requestedPath demoEnv winQuery = updatesDir demoEnv ++ [requestedFileName winQuery] ∧
      (requestedPath demoEnv winQuery).dropLast = updatesDir demoEnv) ∧
    ((∀ c ∈ (jsOr winQuery.platform "win32").data,
        windowsEnv.pathFlavor.isSeparator c = false) ∧
      (∀ c ∈ (jsOr winQuery.arch "x64").data, windowsEnv.pathFlavor.isSeparator c = false) ∧
      requestedPath windowsEnv winQuery =
        updatesDir windowsEnv ++ [requestedFileName winQuery] ∧
      (requestedPath windowsEnv winQuery).dropLast = updatesDir windowsEnv) :=
  have h := requested_path_direct_child demoEnv winQuery "2024-01-01T00:00:00.000Z"
    (by decide) (by decide)
  have hw := requested_path_direct_child windowsEnv winQuery "2024-01-01T00:00:00.000Z"
    (by decide) (by decide)
  ⟨⟨by decide, by decide, h.1, h.2.1⟩, ⟨by decide, by decide, hw.1, hw.2.1⟩⟩

/-- C8 does not hold in the code: the handlers always append `.exe`.  For
`platform=darwin&arch=x64` the file looked up is
`HarobotBlocklyEditor-1.2.0-darwin-x64.exe`, for `platform=linux&arch=x64` it is
`HarobotBlocklyEditor-1.2.0-linux-x64.exe`; neither is a file of the example
file structure printed at start-up, so with exactly that layout on disk both
requests answer 404 and only the win32 request answers 200. -/
theorem example_layout_lookup :
    requestedFileName winQuery = "HarobotBlocklyEditor-1.2.0-win32-x64.exe" ∧
    requestedFileName darwinQuery = "HarobotBlocklyEditor-1.2.0-darwin-x64.exe" ∧
    requestedFileName linuxQuery = "HarobotBlocklyEditor-1.2.0-linux-x64.exe" ∧
    requestedFileName winQuery ∈ exampleFileStructure ∧
    requestedFileName darwinQuery ∉ exampleFileStructure ∧
    requestedFileName linuxQuery ∉ exampleFileStructure ∧
    (exampleEnv.fs ["srv", "app", "updates", "HarobotBlocklyEditor-1.2.0-darwin-x64.dmg"]).isSome ∧
    (exampleEnv.fs ["srv", "app", "updates",
      "HarobotBlocklyEditor-1.2.0-linux-x64.AppImage"]).isSome ∧
    (latest exampleEnv winQuery "2024-01-01T00:00:00.000Z").1.status = 200 ∧
    (latest exampleEnv darwinQuery "2024-01-01T00:00:00.000Z").1.status = 404 ∧
    (latest exampleEnv linuxQuery "2024-01-01T00:00:00.000Z").1.status = 404 ∧
    (latestYml exampleEnv winQuery "2024-01-01T00:00:00.000Z").1.status = 200 ∧
    (latestYml exampleEnv darwinQuery "2024-01-01T00:00:00.000Z").1.status = 404 ∧
    (latestYml exampleEnv linuxQuery "2024-01-01T00:00:00.000Z").1.status = 404 ∧
    (latest exampleEnv darwinQuery "2024-01-01T00:00:00.000Z").2 =
      [.existsSync ["srv", "app", "updates", "HarobotBlocklyEditor-1.2.0-darwin-x64.exe"]] := by
  decide

/-! ## Dependence on time and on earlier requests -/

set_option maxRecDepth 100000 in
/-- C9 fails as stated: two successful requests for the same artifact, served
at different times against the same file, return manifests that differ in
`releaseDate` (JSON field and YAML body). -/
theorem manifest_depends_on_serving_time :
    (latest demoEnv winQuery "2024-01-01T00:00:00.000Z").1.status = 200 ∧
    (latest demoEnv winQuery "2024-01-02T00:00:00.000Z").1.status = 200 ∧
    (latest demoEnv winQuery "2024-01-01T00:00:00.000Z").1.jsonField "releaseDate" ≠
      (latest demoEnv winQuery "2024-01-02T00:00:00.000Z").1.jsonField "releaseDate" ∧
    (latestYml demoEnv winQuery "2024-01-01T00:00:00.000Z").1.status = 200 ∧
    (latestYml demoEnv winQuery "2024-01-02T00:00:00.000Z").1.status = 200 ∧
    (latestYml demoEnv winQuery "2024-01-01T00:00:00.000Z").1.textBody ≠
      (latestYml demoEnv winQuery "2024-01-02T00:00:00.000Z").1.textBody := by
  refine ⟨by decide, by decide, ?_, by decide, by decide, by decide⟩
  intro h
  have h2 : (some (Json.str "2024-01-01T00:00:00.000Z") : Option Json) =
      some (Json.str "2024-01-02T00:00:00.000Z") := h
  simp at h2

/-- Fields of `updateInfo` other than `releaseDate` do not depend on the time. -/
theorem updateInfo_field_time (name sha512 : String) (size : Nat) (t1 t2 key : String)
    (hkey : key ≠ "releaseDate") :
    (updateInfo name sha512 size t1).field key = (updateInfo name sha512 size t2).field key := by
  have hk : ("releaseDate" == key) = false := by
    simpa using fun e => hkey e.symm
  simp only [updateInfo, Json.field, List.find?_cons, hk]

/-- The YAML body is a fixed text around the inserted time. -/
theorem yamlContent_time (p a d : String) (n : Nat) :
    ∃ pre post, ∀ now, yamlContent p a d n now = pre ++ now ++ post := by
  refine ⟨"version: 1.2.0\nfiles:\n  - url: HarobotBlocklyEditor-1.2.0-" ++ p ++ "-" ++ a ++
      ".exe\n    sha512: " ++ d ++ "\n    size: " ++ toString n ++
      "\npath: HarobotBlocklyEditor-1.2.0-" ++ p ++ "-" ++ a ++ ".exe\nsha512: " ++ d ++
      "\nreleaseDate: \x27",
    "\x27\nreleaseName: \x27Harobot Blockly Editor v1.2.0\x27\n" ++
      "releaseNotes: \x27测试版本V1.2，新增在线更新功能，修复了一些bug\x27", fun now => ?_⟩
  apply String.ext
  simp only [yamlContent, String.data_append, List.append_assoc]
  rfl

/-- C9 as amended: two successful requests to the same endpoint with the same
platform and arch against the same artifact file return manifests that agree in
every field other than `releaseDate` (version, files, path, sha512, releaseName,
releaseNotes); `releaseDate` is the time at which the request is served.  The
YAML body is one fixed text around the inserted serving time. -/
theorem manifest_equal_up_to_release_date (env : Env) (q : Query) (t1 t2 : String)
    (node : FileNode) (hfile : env.fs (requestedPath env q) = some node)
    (hread : node.readError = none) (hstat : node.statError = none) :
    (latest env q t1).1.status = 200 ∧ (latest env q t2).1.status = 200 ∧
    (∀ key, key ≠ "releaseDate" →
      (latest env q t1).1.jsonField key = (latest env q t2).1.jsonField key) ∧
    (latest env q t1).1.jsonField "releaseDate" = some (.str t1) ∧
    (latest env q t2).1.jsonField "releaseDate" = some (.str t2) ∧
    (latestYml env q t1).1.status = 200 ∧ (latestYml env q t2).1.status = 200 ∧
    (∃ pre post, ∀ t, (latestYml env q t).1.textBody = some (pre ++ t ++ post)) := by
  refine ⟨?_, ?_, ?_, ?_, ?_, ?_, ?_, ?_⟩
  · rw [latest_of_readable env q t1 node hfile hread hstat]; rfl
  · rw [latest_of_readable env q t2 node hfile hread hstat]; rfl
  · intro key hkey
    rw [latest_of_readable env q t1 node hfile hread hstat,
      latest_of_readable env q t2 node hfile hread hstat]
    exact updateInfo_field_time _ _ _ t1 t2 key hkey
  · rw [latest_of_readable env q t1 node hfile hread hstat]; rfl
  · rw [latest_of_readable env q t2 node hfile hread hstat]; rfl
  · rw [latestYml_of_readable env q t1 node hfile hread hstat]
  · rw [latestYml_of_readable env q t2 node hfile hread hstat]
  · obtain ⟨pre, post, h⟩ := yamlContent_time (jsOr q.platform "win32") (jsOr q.arch "x64")
      (env.sha512Hex node.content) node.content.length
    refine ⟨pre, post, fun t => ?_⟩
    rw [latestYml_of_readable env q t node hfile hread hstat, ← h t]
    rfl

/-- Witness for the amended C9: the Windows installer of the demonstration
deployment, served at two different times. -/
theorem manifest_equal_up_to_release_date_witness :
    demoEnv.fs (requestedPath demoEnv winQuery) = some demoFile ∧
    demoFile.readError = none ∧ demoFile.statError = none ∧
    (latest demoEnv winQuery "2024-01-01T00:00:00.000Z").1.jsonField "sha512" =
      (latest demoEnv winQuery "2024-01-02T00:00:00.000Z").1.jsonField "sha512" ∧
    (latest demoEnv winQuery "2024-01-01T00:00:00.000Z").1.jsonField "releaseDate" =
      some (.str "2024-01-01T00:00:00.000Z") ∧
    (latest demoEnv winQuery "2024-01-02T00:00:00.000Z").1.jsonField "releaseDate" =
      some (.str "2024-01-02T00:00:00.000Z") :=
  have h := manifest_equal_up_to_release_date demoEnv winQuery "2024-01-01T00:00:00.000Z"
    "2024-01-02T00:00:00.000Z" demoFile (by decide) rfl rfl
  ⟨by decide, rfl, rfl, h.2.2.1 "sha512" (by decide), h.2.2.2.1, h.2.2.2.2.1⟩

/-- A handler that finds the artifact opens a read stream over it. -/
theorem latest_streams_file (env : Env) (q : Query) (now : String) (node : FileNode)
    (hfile : env.fs (requestedPath env q) = some node) :
    Event.createReadStream (requestedPath env q) ∈ (latest env q now).2 := by
  have h : env.fs (pathJoin env.pathFlavor (updatesDir env)
      (fileName (jsOr q.platform "win32") (jsOr q.arch "x64"))) = some node := hfile
  simp only [latest, requestedPath, requestedFileName, existsSync_of_file env _ node h]
  split
  · rename_i hne
    exact absurd hne (by decide)
  · split
    · simp
    · split <;> simp

/-- A handler that finds the artifact opens a read stream over it. -/
theorem latestYml_streams_file (env : Env) (q : Query) (now : String) (node : FileNode)
    (hfile : env.fs (requestedPath env q) = some node) :
    Event.createReadStream (requestedPath env q) ∈ (latestYml env q now).2 := by
  have h : env.fs (pathJoin env.pathFlavor (updatesDir env)
      (fileName (jsOr q.platform "win32") (jsOr q.arch "x64"))) = some node := hfile
  simp only [latestYml, requestedPath, requestedFileName, existsSync_of_file env _ node h]
  split
  · rename_i hne
    exact absurd hne (by decide)
  · split
    · simp
    · split <;> simp

/-- C10 fails as stated: two identical requests in a row against an unchanged
file both succeed, and the second one opens a read stream over the file again
(after the existence check and before the size is taken), exactly as the first
one did. -/
theorem second_request_reads_file_again :
    (serveAll demoEnv
        [(.latest, winQuery, "2024-01-01T00:00:00.000Z"),
         (.latest, winQuery, "2024-01-01T00:00:01.000Z")]).map
      (fun r => (r.1.status, r.2)) =
      [(200,
        [.existsSync ["srv", "app", "updates", "HarobotBlocklyEditor-1.2.0-win32-x64.exe"],
         .createReadStream ["srv", "app", "updates", "HarobotBlocklyEditor-1.2.0-win32-x64.exe"],
         .statSync ["srv", "app", "updates", "HarobotBlocklyEditor-1.2.0-win32-x64.exe"]]),
       (200,
        [.existsSync ["srv", "app", "updates", "HarobotBlocklyEditor-1.2.0-win32-x64.exe"],
         .createReadStream ["srv", "app", "updates", "HarobotBlocklyEditor-1.2.0-win32-x64.exe"],
         .statSync ["srv", "app", "updates", "HarobotBlocklyEditor-1.2.0-win32-x64.exe"]])] ∧
    (serveAll demoEnv
        [(.latestYml, winQuery, "2024-01-01T00:00:00.000Z"),
         (.latestYml, winQuery, "2024-01-01T00:00:01.000Z")]).map
      (fun r => (r.1.status, r.2)) =
      [(200,
        [.existsSync ["srv", "app", "updates", "HarobotBlocklyEditor-1.2.0-win32-x64.exe"],
         .createReadStream ["srv", "app", "updates", "HarobotBlocklyEditor-1.2.0-win32-x64.exe"],
         .statSync ["srv", "app", "updates", "HarobotBlocklyEditor-1.2.0-win32-x64.exe"]]),
       (200,
        [.existsSync ["srv", "app", "updates", "HarobotBlocklyEditor-1.2.0-win32-x64.exe"],
         .createReadStream ["srv", "app", "updates", "HarobotBlocklyEditor-1.2.0-win32-x64.exe"],
         .statSync ["srv", "app", "updates", "HarobotBlocklyEditor-1.2.0-win32-x64.exe"]])] := by
  decide

/-- C10 as amended: the server keeps no digest between requests.  Whenever the
artifact file of a request exists, the handler of either endpoint opens a read
stream over it, whatever requests were served before: in any sequence of
requests served against an unchanged file system, each answer for that query
comes with a read of the file. -/
theorem every_request_streams_file (env : Env) (q : Query) (node : FileNode)
    (hfile : env.fs (requestedPath env q) = some node) :
    (∀ ep now, Event.createReadStream (requestedPath env q) ∈ (handle env ep q now).2) ∧
    (∀ (earlier : List (Endpoint × Query × String)) ep now,
      ∃ r, (serveAll env (earlier ++ [(ep, q, now)])).getLast? = some r ∧
        Event.createReadStream (requestedPath env q) ∈ r.2) := by
  have hall : ∀ ep now,
      Event.createReadStream (requestedPath env q) ∈ (handle env ep q now).2 := by
    intro ep now
    cases ep
    · exact latest_streams_file env q now node hfile
    · exact latestYml_streams_file env q now node hfile
  refine ⟨hall, fun earlier ep now => ⟨handle env ep q now, ?_, hall ep now⟩⟩
  simp [serveAll]

/-- Witness for the amended C10: the Windows installer of the demonstration
deployment. -/
theorem every_request_streams_file_witness :
    demoEnv.fs (requestedPath demoEnv winQuery) = some demoFile ∧
    Event.createReadStream (requestedPath demoEnv winQuery) ∈
      (handle demoEnv .latest winQuery "2024-01-01T00:00:01.000Z").2 ∧
    Event.createReadStream (requestedPath demoEnv winQuery) ∈
      (handle demoEnv .latestYml winQuery "2024-01-01T00:00:01.000Z").2 :=
  have h := every_request_streams_file demoEnv winQuery demoFile (by decide)
  ⟨by decide, h.1 .latest _, h.1 .latestYml _⟩

end UpdateServer
